import Mathlib

/-!
Verification of the matrix-discord bridging engine against its
natural-language specification.  The definitions below are a shallow
embedding of the Rust sources: pure functions become Lean functions,
the mapping store becomes an explicit record of lists threaded through
each operation, and every network call becomes an element of an
explicit effect list.  Machine integers (i64 timestamps, u64 ids) are
modelled as `Int` / decimal strings.
-/

namespace Bridge

/-- Age limit for inbound Matrix events, from
`src/matrix/event_handler.rs` (`AGE_LIMIT_MS`). -/
def AGE_LIMIT_MS : Int := 900000

/-- Embedding of `MatrixEvent` from `src/matrix.rs`.  The `content`
payload is kept opaque (`Option String`): the event processor never
inspects it. -/
structure MatrixEvent where
  event_id : Option String
  event_type : String
  room_id : String
  sender : String
  state_key : Option String
  content : Option String
  timestamp : Option String
deriving Repr, DecidableEq

/-- Embedding of Rust `str::parse::<i64>`: an optional sign followed by
one or more ASCII digits, rejected on overflow of the i64 range. -/
def parseDigits : List Char → Option Nat
  | [] => none
  | cs => if cs.all Char.isDigit then
      some (cs.foldl (fun a c => a * 10 + (c.toNat - 48)) 0)
    else none

/-- Rust `str::parse::<i64>` on a whole string, yielding an `Int` in
the i64 range. -/
def rustParseI64 (s : String) : Option Int :=
  match s.data with
  | [] => none
  | c :: rest =>
    if c = '-' then
      (parseDigits rest).bind fun n =>
        if (n : Int) ≤ 2 ^ 63 then some (-(n : Int)) else none
    else if c = '+' then
      (parseDigits rest).bind fun n =>
        if (n : Int) < 2 ^ 63 then some (n : Int) else none
    else
      (parseDigits (c :: rest)).bind fun n =>
        if (n : Int) < 2 ^ 63 then some (n : Int) else none

/-- Embedding of `MatrixEventProcessor::check_event_age` from
`src/matrix/event_handler.rs`: events with a parseable timestamp more
than `AGE_LIMIT_MS` in the past are rejected; future timestamps and
missing or unparseable timestamps are admitted. -/
def check_event_age (e : MatrixEvent) (now : Int) : Bool :=
  match e.timestamp with
  | some s =>
    match rustParseI64 s with
    | some ts =>
      if ts > now then true
      else if now - ts > AGE_LIMIT_MS then false
      else true
    | none => true
  | none => true

/-- The handler invocation selected by the event-type dispatch in
`MatrixEventProcessor::process_event`.  Handlers are the only code
that sends messages or mutates the store. -/
inductive HandlerCall where
  | roomMessage (e : MatrixEvent)
  | roomMember (e : MatrixEvent)
  | presence (e : MatrixEvent)
  | roomEncryption (e : MatrixEvent)
  | roomName (e : MatrixEvent)
  | roomTopic (e : MatrixEvent)
deriving Repr, DecidableEq

/-- The `match event.event_type` dispatch of
`MatrixEventProcessor::process_event`; unknown types are logged and
ignored (`none`). -/
def dispatchEvent (e : MatrixEvent) : Option HandlerCall :=
  match e.event_type with
  | "m.room.message" => some (.roomMessage e)
  | "m.room.member" => some (.roomMember e)
  | "m.presence" => some (.presence e)
  | "m.room.encryption" => some (.roomEncryption e)
  | "m.room.name" => some (.roomName e)
  | "m.room.topic" => some (.roomTopic e)
  | _ => none

/-- Embedding of `MatrixEventProcessor::process_event`: the age check,
then the type dispatch.  The function has no other input: in
particular no ProcessedEvent journal is consulted. -/
def process_event (e : MatrixEvent) (now : Int) : Option HandlerCall :=
  if check_event_age e now then dispatchEvent e else none

/-- The per-transaction loop of `BridgeAppserviceHandler::on_transaction`
in `src/matrix.rs`, restricted to the events it forwards: each event is
processed by `process_event` in delivery order. -/
def processTransaction (events : List MatrixEvent) (now : Int) : List HandlerCall :=
  events.filterMap (fun e => process_event e now)

/-- Embedding of `MessageMapping` from the database models (fields as
used by `src/bridge.rs` and `src/db/sqlite.rs`); timestamps are
epoch-millisecond integers. -/
structure MessageMapping where
  id : Int
  discord_message_id : String
  matrix_room_id : String
  matrix_event_id : String
  created_at : Int
  updated_at : Int
deriving Repr, DecidableEq

/-- Embedding of `RoomMapping` from the database models. -/
structure RoomMapping where
  id : Int
  matrix_room_id : String
  discord_channel_id : String
  discord_channel_name : String
  discord_guild_id : String
  created_at : Int
  updated_at : Int
deriving Repr, DecidableEq

/-- Embedding of `OutboundMatrixMessage` (field set as constructed and
consumed throughout `src/bridge.rs` and `src/bridge/logic.rs`). -/
structure OutboundMatrixMessage where
  body : String
  reply_to : Option String
  edit_of : Option String
  attachments : List String
deriving Repr, DecidableEq

/-- Embedding of `apply_message_relation_mappings` from
`src/bridge/logic.rs` (the copy in `src/bridge.rs` is identical):
each present mapping replaces the corresponding relation field with
its `matrix_event_id`; an absent mapping leaves the field unchanged. -/
def apply_message_relation_mappings (outbound : OutboundMatrixMessage)
    (reply_mapping edit_mapping : Option MessageMapping) : OutboundMatrixMessage :=
  let o := match reply_mapping with
    | some link => { outbound with reply_to := some link.matrix_event_id }
    | none => outbound
  match edit_mapping with
  | some link => { o with edit_of := some link.matrix_event_id }
  | none => o

/-- Embedding of `DiscordUser` from `src/discord.rs`. -/
structure DiscordUser where
  id : String
  username : String
  discriminator : String
  avatar : Option String
deriving Repr, DecidableEq

/-- Embedding of `DiscordChannel` from `src/discord.rs`. -/
structure DiscordChannel where
  id : String
  name : String
  guild_id : String
  topic : Option String
deriving Repr, DecidableEq

/-- The persistent mapping store as consumed by the engine: the
`room_mappings` and `message_mappings` tables (the schema in
`src/db/manager.rs` declares no foreign key between them). -/
structure BridgeState where
  roomMappings : List RoomMapping
  messageMappings : List MessageMapping
deriving Repr, DecidableEq

/-- `RoomStore::get_room_by_discord_channel`: first row whose
`discord_channel_id` matches. -/
def get_room_by_discord_channel (st : BridgeState) (cid : String) : Option RoomMapping :=
  st.roomMappings.find? (fun m => m.discord_channel_id = cid)

/-- `RoomStore::get_room_by_matrix_room`: first row whose
`matrix_room_id` matches. -/
def get_room_by_matrix_room (st : BridgeState) (rid : String) : Option RoomMapping :=
  st.roomMappings.find? (fun m => m.matrix_room_id = rid)

/-- `MessageStore::get_by_discord_message_id`: first row whose
`discord_message_id` matches. -/
def get_by_discord_message_id (st : BridgeState) (mid : String) : Option MessageMapping :=
  st.messageMappings.find? (fun m => m.discord_message_id = mid)

/-- `RoomStore::delete_room_mapping` (`src/db/sqlite.rs`): delete the
rows of `room_mappings` with the given primary key; no other table is
touched. -/
def delete_room_mapping (st : BridgeState) (rid : Int) : BridgeState :=
  { st with roomMappings := st.roomMappings.filter (fun m => m.id ≠ rid) }

/-- `RoomStore::create_room_mapping`: insert the new row. -/
def create_room_mapping (st : BridgeState) (m : RoomMapping) : BridgeState :=
  { st with roomMappings := st.roomMappings ++ [m] }

/-- The row-update half of `MessageStore::upsert_message_mapping`
(`src/db/sqlite.rs`): the first row with the same `discord_message_id`
gets the new `matrix_room_id`, `matrix_event_id` and `updated_at`;
absent a match the row is inserted. -/
def upsertMessageList : List MessageMapping → MessageMapping → List MessageMapping
  | [], m => [m]
  | x :: xs, m =>
    if x.discord_message_id = m.discord_message_id then
      { x with matrix_room_id := m.matrix_room_id
             , matrix_event_id := m.matrix_event_id
             , updated_at := m.updated_at } :: xs
    else x :: upsertMessageList xs m

/-- `MessageStore::upsert_message_mapping` on the store. -/
def upsert_message_mapping (st : BridgeState) (m : MessageMapping) : BridgeState :=
  { st with messageMappings := upsertMessageList st.messageMappings m }

/-- `MessageStore::delete_by_discord_message_id`. -/
def delete_by_discord_message_id (st : BridgeState) (mid : String) : BridgeState :=
  { st with messageMappings :=
      st.messageMappings.filter (fun m => m.discord_message_id ≠ mid) }

/-- One outbound side effect of the engine: a call on the Matrix or
Discord wire adapter. -/
inductive Effect where
  | matrixNotice (room text : String)
  | matrixMessage (room sender body : String)
      (reply_to edit_of : Option String) (attachments : List String)
  | matrixRedaction (room event_id reason : String)
  | matrixStateEvent (room event_type content : String)
  | deleteRoomAlias (aliasName : String)
  | ghostRegistered (discord_user : String) (display : Option String)
  | discordMessage (channel content : String)
deriving Repr, DecidableEq

/-- Embedding of `RedactionRequest` from `src/bridge/logic.rs`. -/
structure RedactionRequest where
  room_id : String
  event_id : String
  reason : String
deriving Repr, DecidableEq

/-- Embedding of `build_discord_delete_redaction_request` from
`src/bridge/logic.rs`. -/
def build_discord_delete_redaction_request (link : MessageMapping) : RedactionRequest :=
  { room_id := link.matrix_room_id
  , event_id := link.matrix_event_id
  , reason := "Deleted on Discord" }

/-- Embedding of `BridgeCore::handle_discord_message_delete` from
`src/bridge.rs`: look up the mapping for the deleted Discord message,
and when present redact the linked Matrix event and delete the
mapping; when absent do nothing. -/
def handle_discord_message_delete (mid : String) (st : BridgeState) :
    List Effect × BridgeState :=
  match get_by_discord_message_id st mid with
  | none => ([], st)
  | some link =>
    let request := build_discord_delete_redaction_request link
    ([.matrixRedaction request.room_id request.event_id request.reason],
      delete_by_discord_message_id st mid)

/-- Embedding of `unique_message_ids` from `src/discord.rs`: keep each
message id the first time it is seen (Discord snowflake ids are
modelled by their decimal strings). -/
def uniqueMessageIdsAux (seen : List String) : List String → List String
  | [] => []
  | mid :: rest =>
    if mid ∈ seen then uniqueMessageIdsAux seen rest
    else mid :: uniqueMessageIdsAux (mid :: seen) rest

/-- `unique_message_ids` with an initially empty seen-set. -/
def unique_message_ids (ids : List String) : List String :=
  uniqueMessageIdsAux [] ids

/-- The sequential per-id loop of
`ReadySignalHandler::message_delete_bulk` (`src/discord.rs`), applied
to an already-deduplicated id list. -/
def bulkDeleteRun : List String → BridgeState → List Effect × BridgeState
  | [], st => ([], st)
  | mid :: rest, st =>
    let step := handle_discord_message_delete mid st
    let tail := bulkDeleteRun rest step.2
    (step.1 ++ tail.1, tail.2)

/-- Embedding of `ReadySignalHandler::message_delete_bulk`: dedup the
delivered ids, then run the single-message delete handler on each in
order. -/
def message_delete_bulk (ids : List String) (st : BridgeState) :
    List Effect × BridgeState :=
  bulkDeleteRun (unique_message_ids ids) st

/-- Outcome of `ProvisioningCoordinator::ask_bridge_permission` as
matched in `BridgeCore::request_bridge_matrix_room`. -/
inductive ProvisioningResult where
  | ok
  | timedOut
  | declined
  | otherError
deriving Repr, DecidableEq

/-- The configuration values and external lookups `BridgeCore` reads.
Functions stand for the wire adapters (`get_user`, `get_channel`,
`get_room_state_event`) and for the provisioning coordinator, whose
module is consumed through the match arms in `src/bridge.rs`. -/
structure BridgeEnv where
  users : String → Option DiscordUser
  channels : String → Option DiscordChannel
  roomState : String → String → Option String
  provision : String → String → ProvisioningResult
  mentionResolve : String → Option String
  approvalPending : String → Bool
  ghostUsernamePattern : String
  channelNamePattern : String
  nameDeletePrepend : Option String
  topicDeletePrepend : Option String
  unsetRoomAlias : Bool
  aliasLocalpartPre : String
  domain : String
  roomCountLimit : Int
  newEventId : String
  freshRoomId : Int
  now : Int

/-- Embedding of `BridgeCore::unbridge_matrix_room` from
`src/bridge.rs`: look up the RoomMapping for the room; when present,
apply the configured delete options (prepend to the room name and
topic when configured and the state event is readable, optionally
delete the bridge room alias), then delete the RoomMapping.  The
message_mappings table is never touched. -/
def unbridge_matrix_room (room : String) (env : BridgeEnv) (st : BridgeState) :
    String × List Effect × BridgeState :=
  match get_room_by_matrix_room st room with
  | none => ("This room is not bridged.", [], st)
  | some mapping =>
    let nameEffs := match env.nameDeletePrepend with
      | some pre =>
        match env.roomState room "m.room.name" with
        | some name => [Effect.matrixStateEvent room "m.room.name" (pre ++ name)]
        | none => []
      | none => []
    let topicEffs := match env.topicDeletePrepend with
      | some pre =>
        match env.roomState room "m.room.topic" with
        | some topic => [Effect.matrixStateEvent room "m.room.topic" (pre ++ topic)]
        | none => []
      | none => []
    let aliasEffs :=
      if env.unsetRoomAlias then
        [Effect.deleteRoomAlias
          ("#" ++ env.aliasLocalpartPre ++ mapping.discord_channel_id ++ ":" ++ env.domain)]
      else []
    ("This room has been unbridged", nameEffs ++ topicEffs ++ aliasEffs,
      delete_room_mapping st mapping.id)

/-- Embedding of `DiscordMessageContext` from `src/bridge.rs`; the
permission set is modelled as a list of permission names. -/
structure DiscordMessageContext where
  channel_id : String
  source_message_id : Option String
  sender_id : String
  content : String
  attachments : List String
  reply_to : Option String
  edit_of : Option String
  permissions : List String
deriving Repr, DecidableEq

/-- Embedding of `DiscordInboundMessage` (fields as constructed in
`BridgeCore::handle_discord_message_with_context`). -/
structure DiscordInboundMessage where
  channel_id : String
  sender_id : String
  content : String
  attachments : List String
  reply_to : Option String
  edit_of : Option String
deriving Repr, DecidableEq

/-- Modelled from the spec: `apply_pattern_string` from the missing
`src/utils/formatting.rs` renders a configurable pattern by replacing
each `:key` placeholder with its value. -/
def apply_pattern_string (pattern : String) (vars : List (String × String)) : String :=
  vars.foldl (fun acc kv => acc.replace (":" ++ kv.1) kv.2) pattern

/-- Split a character list at each space, keeping empty segments (the
behaviour of `str::split(' ')`). -/
def splitWordsAux : List Char → List Char → List String
  | [], acc => [String.mk acc.reverse]
  | c :: cs, acc =>
    if c = ' ' then String.mk acc.reverse :: splitWordsAux cs []
    else splitWordsAux cs (c :: acc)

/-- Split a string into its space-separated words. -/
def splitWords (s : String) : List String :=
  splitWordsAux s.data []

/-- Join words back with single spaces. -/
def joinWords : List String → String
  | [] => ""
  | [w] => w
  | w :: ws => w ++ " " ++ joinWords ws

/-- Modelled from the spec: the mention substitution of the missing
`src/bridge/message_flow.rs` — each whitespace-separated `<@id>` token
is replaced by the resolved display name, falling back to the raw id. -/
def substituteMentions (resolve : String → Option String) (content : String) : String :=
  joinWords ((splitWords content).map (fun w =>
    if ("<@".data).isPrefixOf w.data ∧ (">".data).isSuffixOf w.data then
      let uid := String.mk ((w.data.drop 2).dropLast)
      match resolve uid with
      | some name => name
      | none => uid
    else w))

/-- Modelled from the spec: `MessageFlow::discord_to_matrix` from the
missing `src/bridge/message_flow.rs` — the Discord content becomes the
Matrix body after mention substitution, while the reply and edit
targets still carry the Discord message ids (the caller rewrites them
via the MessageMapping lookup afterwards). -/
def discord_to_matrix (resolve : String → Option String)
    (msg : DiscordInboundMessage) : OutboundMatrixMessage :=
  { body := substituteMentions resolve msg.content
  , reply_to := msg.reply_to
  , edit_of := msg.edit_of
  , attachments := msg.attachments }

/-- Modelled from the spec: `OutboundMatrixMessage::render_body` from
the missing `src/bridge/message_flow.rs`.  The spec inserts a warning
only for oversize attachments; attachment sizes are not part of this
model, so the rendered body is the outbound body. -/
def render_body (o : OutboundMatrixMessage) : String :=
  o.body

/-- Modelled from the spec: `DiscordCommandHandler::is_command` from
the missing `src/discord/command_handler.rs` — a body is a command
when it begins with the Discord-side command prefix. -/
def discord_is_command (content : String) : Bool :=
  ("!matrix".data).isPrefixOf content.data

/-- Embedding of `ModerationAction` from the Discord command handler
as consumed by `src/bridge.rs`. -/
inductive ModerationAction where
  | kick
  | ban
  | unban
deriving Repr, DecidableEq

/-- Embedding of `DiscordCommandOutcome` as consumed by
`BridgeCore::handle_discord_command_outcome`. -/
inductive DiscordCommandOutcome where
  | ignored
  | reply (text : String)
  | approveRequested
  | denyRequested
  | moderationRequested (action : ModerationAction) (matrix_user : String)
  | unbridgeRequested
deriving Repr, DecidableEq

/-- Embedding of `ApprovalResponseStatus` as matched in
`src/bridge.rs`. -/
inductive ApprovalResponseStatus where
  | applied
  | expired
deriving Repr, DecidableEq

/-- Modelled from the spec: `ProvisioningCoordinator::mark_approval`
from the missing `src/bridge/provisioning.rs` returns `Applied` when
the channel still has a pending request and `Expired` otherwise. -/
def mark_approval (env : BridgeEnv) (channel_id : String) : ApprovalResponseStatus :=
  if env.approvalPending channel_id then .applied else .expired

/-- Modelled from the spec: `DiscordCommandHandler::handle` from the
missing `src/discord/command_handler.rs` — recognizes `!matrix
approve`, `!matrix deny`, `!matrix kick|ban|unban <matrix-user>`
(gated on the corresponding Discord permission) and `!matrix
unbridge` (gated on MANAGE_CHANNELS). -/
def discord_command_handle (content : String) (_mapped : Bool)
    (perms : List String) : DiscordCommandOutcome :=
  if content = "!matrix approve" then .approveRequested
  else if content = "!matrix deny" then .denyRequested
  else if content.startsWith "!matrix kick " then
    if "KICK_MEMBERS" ∈ perms then
      .moderationRequested .kick (content.drop "!matrix kick ".length)
    else .reply "You do not have permission to do that."
  else if content.startsWith "!matrix ban " then
    if "BAN_MEMBERS" ∈ perms then
      .moderationRequested .ban (content.drop "!matrix ban ".length)
    else .reply "You do not have permission to do that."
  else if content.startsWith "!matrix unban " then
    if "BAN_MEMBERS" ∈ perms then
      .moderationRequested .unban (content.drop "!matrix unban ".length)
    else .reply "You do not have permission to do that."
  else if content = "!matrix unbridge" then
    if "MANAGE_CHANNELS" ∈ perms then .unbridgeRequested
    else .reply "You do not have permission to do that."
  else .ignored

/-- Embedding of `action_keyword` from `src/bridge.rs`. -/
def action_keyword : ModerationAction → String
  | .kick => "kick"
  | .ban => "ban"
  | .unban => "unban"

/-- The past-tense word of the moderation reply in
`BridgeCore::handle_discord_command_outcome`. -/
def action_word : ModerationAction → String
  | .kick => "Kicked"
  | .ban => "Banned"
  | .unban => "Unbanned"

/-- Embedding of `BridgeCore::handle_discord_command_outcome` from
`src/bridge.rs`. -/
def handle_discord_command_outcome (outcome : DiscordCommandOutcome)
    (ctx : DiscordMessageContext) (room_mapping : Option RoomMapping)
    (env : BridgeEnv) (st : BridgeState) : List Effect × BridgeState :=
  match outcome with
  | .ignored => ([], st)
  | .reply text => ([.discordMessage ctx.channel_id text], st)
  | .approveRequested =>
    let reply := match mark_approval env ctx.channel_id with
      | .applied => "Thanks for your response! The matrix bridge has been approved."
      | .expired => "Thanks for your response, however it has arrived after the deadline - sorry!"
    ([.discordMessage ctx.channel_id reply], st)
  | .denyRequested =>
    let reply := match mark_approval env ctx.channel_id with
      | .applied => "Thanks for your response! The matrix bridge has been declined."
      | .expired => "Thanks for your response, however it has arrived after the deadline - sorry!"
    ([.discordMessage ctx.channel_id reply], st)
  | .moderationRequested action matrix_user =>
    let replyEff := Effect.discordMessage ctx.channel_id
      (action_word action ++ " " ++ matrix_user)
    let noticeEffs := match room_mapping with
      | some mapping =>
        [Effect.matrixNotice mapping.matrix_room_id
          ("Discord moderation request: " ++ action_keyword action ++ " "
            ++ matrix_user ++ " (requested by " ++ ctx.sender_id ++ ")")]
      | none => []
    (replyEff :: noticeEffs, st)
  | .unbridgeRequested =>
    match room_mapping with
    | some mapping =>
      ([.discordMessage ctx.channel_id "This channel has been unbridged"],
        delete_room_mapping st mapping.id)
    | none =>
      ([.discordMessage ctx.channel_id
          "This channel is not bridged to a plumbed matrix room"], st)

/-- Embedding of `BridgeCore::handle_discord_message_with_context`
from `src/bridge.rs`: look up the room mapping, divert commands,
otherwise register the ghost sender, translate the message, rewrite
its reply/edit relations through the MessageMapping store, send to
Matrix and upsert the MessageMapping for the source message. -/
def handle_discord_message_with_context (ctx : DiscordMessageContext)
    (env : BridgeEnv) (st : BridgeState) : List Effect × BridgeState :=
  let room_mapping := get_room_by_discord_channel st ctx.channel_id
  if discord_is_command ctx.content then
    handle_discord_command_outcome
      (discord_command_handle ctx.content room_mapping.isSome ctx.permissions)
      ctx room_mapping env st
  else
    match room_mapping with
    | none => ([], st)
    | some mapping =>
      let ghostEff := match env.users ctx.sender_id with
        | some u =>
          Effect.ghostRegistered ctx.sender_id
            (some (apply_pattern_string env.ghostUsernamePattern
              [("id", u.id), ("tag", u.discriminator), ("username", u.username)]))
        | none => Effect.ghostRegistered ctx.sender_id none
      let outbound := discord_to_matrix env.mentionResolve
        { channel_id := ctx.channel_id, sender_id := ctx.sender_id
        , content := ctx.content, attachments := ctx.attachments
        , reply_to := ctx.reply_to, edit_of := ctx.edit_of }
      let reply_mapping := match outbound.reply_to with
        | some rid => get_by_discord_message_id st rid
        | none => none
      let edit_mapping := match outbound.edit_of with
        | some eid => get_by_discord_message_id st eid
        | none => none
      let outbound := apply_message_relation_mappings outbound reply_mapping edit_mapping
      let sendEff := Effect.matrixMessage mapping.matrix_room_id ctx.sender_id
        (render_body outbound) outbound.reply_to outbound.edit_of outbound.attachments
      let newState := match ctx.source_message_id with
        | some mid => upsert_message_mapping st
            { id := 0, discord_message_id := mid
            , matrix_room_id := mapping.matrix_room_id
            , matrix_event_id := env.newEventId
            , created_at := env.now, updated_at := env.now }
        | none => st
      ([ghostEff, sendEff], newState)

/-- A Matrix message send recorded in the effect list, as handed to
`MatrixAppservice::send_message_with_metadata`. -/
structure SentMatrixMessage where
  room : String
  sender : String
  body : String
  reply_to : Option String
  edit_of : Option String
  attachments : List String
deriving Repr, DecidableEq

/-- The Matrix messages among a list of effects. -/
def sent_matrix_messages (effs : List Effect) : List SentMatrixMessage :=
  effs.filterMap (fun e =>
    match e with
    | .matrixMessage room sender body reply_to edit_of attachments =>
      some { room := room, sender := sender, body := body
           , reply_to := reply_to, edit_of := edit_of, attachments := attachments }
    | _ => none)

/-- Embedding of the inbound `serenity` gateway message as read by
`ReadySignalHandler::message` in `src/discord.rs`. -/
structure GatewayMessage where
  id : String
  channel_id : String
  author_id : String
  author_bot : Bool
  content : String
  webhook_id : Option Nat
  attachments : List String
  referenced_message_id : Option String
  member_permissions : List String
deriving Repr, DecidableEq

/-- Embedding of `ReadySignalHandler::message`: bot authors are
dropped first, then messages from the engine's own webhooks, then
messages arriving before the bridge is bound; otherwise the context
forwarded to `handle_discord_message_with_context` is built. -/
def message_event (msg : GatewayMessage) (ownedWebhooks : List Nat)
    (bridgeBound : Bool) : Option DiscordMessageContext :=
  if msg.author_bot then none
  else if (match msg.webhook_id with
    | some w => ownedWebhooks.contains w
    | none => false) then none
  else if !bridgeBound then none
  else some
    { channel_id := msg.channel_id
    , source_message_id := some msg.id
    , sender_id := msg.author_id
    , content := msg.content
    , attachments := msg.attachments
    , reply_to := msg.referenced_message_id
    , edit_of := none
    , permissions := msg.member_permissions }

/-- The gateway message handler composed with the bridge: a dropped
message produces no effects and leaves the store unchanged. -/
def message_event_effects (msg : GatewayMessage) (ownedWebhooks : List Nat)
    (bridgeBound : Bool) (env : BridgeEnv) (st : BridgeState) :
    List Effect × BridgeState :=
  match message_event msg ownedWebhooks bridgeBound with
  | some ctx => handle_discord_message_with_context ctx env st
  | none => ([], st)

/-- Embedding of `check_room_limit` from `src/bridge.rs`: a negative
configured limit disables the check; otherwise the limit message is
returned when the stored room count has reached the limit. -/
def check_room_limit (env : BridgeEnv) (st : BridgeState) : Option String :=
  if env.roomCountLimit < 0 then none
  else if (st.roomMappings.length : Int) ≥ env.roomCountLimit then
    some ("This bridge has reached its room limit of " ++ toString env.roomCountLimit
      ++ ". Unbridge another room to allow for new connections.")
  else none

/-- Embedding of `BridgeCore::bridge_matrix_room` from
`src/bridge.rs`: re-check the limit and the channel, create the
RoomMapping and set the Matrix room name from the channel name
pattern. -/
def bridge_matrix_room (room guild channel : String) (env : BridgeEnv)
    (st : BridgeState) : String × List Effect × BridgeState :=
  match check_room_limit env st with
  | some msg => (msg, [], st)
  | none =>
    if (get_room_by_discord_channel st channel).isSome then
      ("This Discord channel is already bridged.", [], st)
    else
      match env.channels channel with
      | none => ("There was a problem bridging that channel - channel was not found.", [], st)
      | some ch =>
        let mapping : RoomMapping :=
          { id := env.freshRoomId, matrix_room_id := room
          , discord_channel_id := ch.id, discord_channel_name := ch.name
          , discord_guild_id := guild, created_at := env.now, updated_at := env.now }
        let formatted := apply_pattern_string env.channelNamePattern
          [("guild", ch.guild_id), ("name", "#" ++ mapping.discord_channel_name)]
        ("I have bridged this room to your channel",
          [.matrixStateEvent room "m.room.name" formatted],
          create_room_mapping st mapping)

/-- Embedding of `BridgeCore::request_bridge_matrix_room` from
`src/bridge.rs`: after the limit, duplicate and existence checks, a
notice announces the permission request; the provisioning outcome then
selects the reply, and only the `Ok` outcome creates a mapping. -/
def request_bridge_matrix_room (room requestor guild channel : String)
    (env : BridgeEnv) (st : BridgeState) : String × List Effect × BridgeState :=
  match check_room_limit env st with
  | some msg => (msg, [], st)
  | none =>
    if (get_room_by_discord_channel st channel).isSome then
      ("This Discord channel is already bridged.", [], st)
    else
      match env.channels channel with
      | none => ("There was a problem bridging that channel - channel was not found.", [], st)
      | some ch =>
        let asking := Effect.matrixNotice room
          "I'm asking permission from the guild administrators to make this bridge."
        match env.provision ch.id requestor with
        | .ok =>
          let r := bridge_matrix_room room guild channel env st
          (r.1, asking :: r.2.1, r.2.2)
        | .timedOut =>
          ("Timed out waiting for a response from the Discord owners.", [asking], st)
        | .declined =>
          ("The bridge has been declined by the Discord guild.", [asking], st)
        | .otherError =>
          ("There was a problem bridging that channel - has the guild owner approved the bridge?",
            [asking], st)

/-- The relation variants of `m.relates_to` written by
`MatrixAppservice::send_message_with_metadata` in `src/matrix.rs`. -/
inductive MRelatesTo where
  | inReplyTo (event_id : String)
  | replace (event_id : String)
deriving Repr, DecidableEq

/-- The `m.new_content` object of an edit. -/
structure NewContent where
  msgtype : String
  body : String
deriving Repr, DecidableEq

/-- The `m.room.message` wire content assembled by
`send_message_with_metadata`: a JSON object with `msgtype`, `body`, an
optional `m.relates_to` (a single key, so a later assignment
overwrites an earlier one) and an optional `m.new_content`. -/
structure WireContent where
  msgtype : String
  body : String
  relates_to : Option MRelatesTo
  new_content : Option NewContent
deriving Repr, DecidableEq

/-- Embedding of the content construction in
`MatrixAppservice::send_message_with_metadata` (`src/matrix.rs`): the
reply relation is written first; a present `edit_of` then writes
`m.new_content`, overwrites `m.relates_to` with the `m.replace`
relation, and turns the wire body into the `* `-prefixed fallback. -/
def build_message_content (body : String) (reply_to edit_of : Option String) : WireContent :=
  let c : WireContent :=
    { msgtype := "m.text", body := body, relates_to := none, new_content := none }
  let c := match reply_to with
    | some rid => { c with relates_to := some (.inReplyTo rid) }
    | none => c
  match edit_of with
  | some eid =>
    { c with new_content := some { msgtype := "m.text", body := body }
           , relates_to := some (.replace eid)
           , body := "* " ++ body }
  | none => c

/-- The three fields recovered from wire content by the parsing
direction. -/
structure ParsedMatrixMessage where
  body : String
  reply_to : Option String
  edit_of : Option String
deriving Repr, DecidableEq

/-- Modelled from the spec: the Matrix-event parsing direction
(`MessageFlow::parse_matrix_event` of the missing
`src/bridge/message_flow.rs`) — `reply_to` from
`m.relates_to.m.in_reply_to.event_id`, `edit_of` from a `m.relates_to`
with `rel_type = "m.replace"`, and for an edit the body MUST be the
new content. -/
def parse_matrix_wire (c : WireContent) : ParsedMatrixMessage :=
  match c.relates_to with
  | some (.replace eid) =>
    { body := match c.new_content with
        | some nc => nc.body
        | none => c.body
    , reply_to := none
    , edit_of := some eid }
  | some (.inReplyTo rid) =>
    { body := c.body, reply_to := some rid, edit_of := none }
  | none =>
    { body := c.body, reply_to := none, edit_of := none }

/-- Embedding of `MatrixCommandOutcome` as consumed by
`BridgeCore::handle_matrix_command_outcome`. -/
inductive MatrixCommandOutcome where
  | ignored
  | reply (text : String)
  | bridgeRequested (guild_id channel_id : String)
  | unbridgeRequested
deriving Repr, DecidableEq

/-- Embedding of `BridgeCore::handle_matrix_command_outcome` from
`src/bridge.rs`: the reply computed for a bridge or unbridge request
is delivered to the requesting room as a notice. -/
def handle_matrix_command_outcome (outcome : MatrixCommandOutcome)
    (room sender : String) (env : BridgeEnv) (st : BridgeState) :
    List Effect × BridgeState :=
  match outcome with
  | .ignored => ([], st)
  | .reply text => ([.matrixNotice room text], st)
  | .bridgeRequested guild channel =>
    let r := request_bridge_matrix_room room sender guild channel env st
    (r.2.1 ++ [.matrixNotice room r.1], r.2.2)
  | .unbridgeRequested =>
    let r := unbridge_matrix_room room env st
    (r.2.1 ++ [.matrixNotice room r.1], r.2.2)

end Bridge

namespace Bridge

/-- Membership in the deduplicated list: an id survives iff it occurs
in the input and was not already seen. -/
theorem mem_uniqueMessageIdsAux (x : String) :
    ∀ (l seen : List String),
      x ∈ uniqueMessageIdsAux seen l ↔ (x ∈ l ∧ x ∉ seen) := by
  intro l
  induction l with
  | nil => intro seen; simp [uniqueMessageIdsAux]
  | cons mid rest ih =>
    intro seen
    by_cases h : mid ∈ seen
    · rw [uniqueMessageIdsAux, if_pos h, ih]
      constructor
      · rintro ⟨hx, hn⟩
        exact ⟨List.mem_cons_of_mem _ hx, hn⟩
      · rintro ⟨hor, hn⟩
        rcases List.mem_cons.mp hor with heq | hx
        · subst heq; exact absurd h hn
        · exact ⟨hx, hn⟩
    · rw [uniqueMessageIdsAux, if_neg h]
      constructor
      · intro hx
        rcases List.mem_cons.mp hx with heq | hx'
        · subst heq; exact ⟨List.mem_cons_self _ _, h⟩
        · obtain ⟨hr, hn⟩ := (ih (mid :: seen)).mp hx'
          exact ⟨List.mem_cons_of_mem _ hr,
            fun hs => hn (List.mem_cons_of_mem _ hs)⟩
      · rintro ⟨hor, hn⟩
        rcases List.mem_cons.mp hor with heq | hx
        · subst heq; exact List.mem_cons_self _ _
        · by_cases hxm : x = mid
          · subst hxm; exact List.mem_cons_self _ _
          · refine List.mem_cons_of_mem _ ((ih (mid :: seen)).mpr ⟨hx, ?_⟩)
            intro hs
            rcases List.mem_cons.mp hs with heq | hs'
            · exact hxm heq
            · exact hn hs'

/-- The deduplicated list has no duplicates. -/
theorem nodup_uniqueMessageIdsAux :
    ∀ (l seen : List String), (uniqueMessageIdsAux seen l).Nodup := by
  intro l
  induction l with
  | nil => intro seen; simp [uniqueMessageIdsAux]
  | cons mid rest ih =>
    intro seen
    by_cases h : mid ∈ seen
    · rw [uniqueMessageIdsAux, if_pos h]; exact ih seen
    · rw [uniqueMessageIdsAux, if_neg h]
      refine List.nodup_cons.mpr ⟨fun hmem => ?_, ih (mid :: seen)⟩
      exact ((mem_uniqueMessageIdsAux mid rest (mid :: seen)).mp hmem).2
        (List.mem_cons_self _ _)

/-- The deduplicated list is a sublist of the input, so the order of
first occurrences is preserved. -/
theorem sublist_uniqueMessageIdsAux :
    ∀ (l seen : List String), (uniqueMessageIdsAux seen l).Sublist l := by
  intro l
  induction l with
  | nil => intro seen; simp [uniqueMessageIdsAux]
  | cons mid rest ih =>
    intro seen
    by_cases h : mid ∈ seen
    · rw [uniqueMessageIdsAux, if_pos h]
      exact (ih seen).cons mid
    · rw [uniqueMessageIdsAux, if_neg h]
      exact (ih (mid :: seen)).cons₂ mid

/-- Deleting the message mapping for one Discord id does not change
lookups for any other id. -/
theorem find_after_delete_ne (l : List MessageMapping) (a b : String) (h : b ≠ a) :
    (l.filter (fun m => m.discord_message_id ≠ a)).find?
        (fun m => m.discord_message_id = b)
      = l.find? (fun m => m.discord_message_id = b) := by
  induction l with
  | nil => rfl
  | cons x xs ih =>
    rw [List.filter_cons]
    by_cases ha : x.discord_message_id = a
    · rw [if_neg (by simp [ha]), ih,
        List.find?_cons_of_neg _ (by simp only [decide_eq_true_eq, ha]; exact Ne.symm h)]
    · rw [if_pos (by simp [ha])]
      by_cases hb : x.discord_message_id = b
      · rw [List.find?_cons_of_pos _ (by simp [hb]),
          List.find?_cons_of_pos _ (by simp [hb])]
      · rw [List.find?_cons_of_neg _ (by simp [hb]),
          List.find?_cons_of_neg _ (by simp [hb]), ih]

/-- Running the bulk-delete loop on a duplicate-free id list issues
exactly one redaction per id that is mapped in the initial store, in
list order. -/
theorem bulkDeleteRun_effects (l : List String) (st : BridgeState) (h : l.Nodup) :
    (bulkDeleteRun l st).1 = l.filterMap (fun mid =>
      (get_by_discord_message_id st mid).map (fun link =>
        Effect.matrixRedaction link.matrix_room_id link.matrix_event_id
          "Deleted on Discord")) := by
  induction l generalizing st with
  | nil => simp [bulkDeleteRun]
  | cons a rest ih =>
    obtain ⟨ha, hnd⟩ := List.nodup_cons.mp h
    cases hfind : get_by_discord_message_id st a with
    | none =>
      simp [bulkDeleteRun, handle_discord_message_delete, hfind, ih _ hnd]
    | some link =>
      simp only [bulkDeleteRun, handle_discord_message_delete, hfind,
        build_discord_delete_redaction_request, List.filterMap_cons, Option.map_some,
        List.singleton_append]
      rw [ih _ hnd]
      congr 1
      apply List.filterMap_congr
      intro mid hmid
      have hne : mid ≠ a := fun heq => ha (heq ▸ hmid)
      rw [show get_by_discord_message_id (delete_by_discord_message_id st a) mid
            = get_by_discord_message_id st mid from ?_]
      unfold get_by_discord_message_id delete_by_discord_message_id
      exact find_after_delete_ne st.messageMappings a mid hne

/-- A store mapping Discord messages 42, 99 and 7 into one Matrix
room, used as the bulk-delete scenario of the specification. -/
def bulkExampleState : BridgeState :=
  { roomMappings := []
  , messageMappings :=
      [ { id := 1, discord_message_id := "42", matrix_room_id := "!room:example.org"
        , matrix_event_id := "$e42", created_at := 0, updated_at := 0 }
      , { id := 2, discord_message_id := "99", matrix_room_id := "!room:example.org"
        , matrix_event_id := "$e99", created_at := 0, updated_at := 0 }
      , { id := 3, discord_message_id := "7", matrix_room_id := "!room:example.org"
        , matrix_event_id := "$e7", created_at := 0, updated_at := 0 } ] }

/-- C5: bulk deletes are deduplicated preserving the order of first
occurrence (no duplicates, a sublist of the input, same members), the
redactions issued are exactly one per distinct mapped id in that
order, and on input ids [42, 99, 42, 7, 99] with all three mapped,
exactly three redactions are issued, in the order 42, 99, 7. -/
theorem bulk_delete_dedup_spec :
    (∀ ids : List String, (unique_message_ids ids).Nodup ∧
      (unique_message_ids ids).Sublist ids ∧
      ∀ x, x ∈ unique_message_ids ids ↔ x ∈ ids) ∧
    (∀ (ids : List String) (st : BridgeState),
      (message_delete_bulk ids st).1 = (unique_message_ids ids).filterMap (fun mid =>
        (get_by_discord_message_id st mid).map (fun link =>
          Effect.matrixRedaction link.matrix_room_id link.matrix_event_id
            "Deleted on Discord"))) ∧
    unique_message_ids ["42", "99", "42", "7", "99"] = ["42", "99", "7"] ∧
    (message_delete_bulk ["42", "99", "42", "7", "99"] bulkExampleState).1
      = [Effect.matrixRedaction "!room:example.org" "$e42" "Deleted on Discord",
         Effect.matrixRedaction "!room:example.org" "$e99" "Deleted on Discord",
         Effect.matrixRedaction "!room:example.org" "$e7" "Deleted on Discord"] := by
  refine ⟨fun ids => ⟨nodup_uniqueMessageIdsAux ids [],
      sublist_uniqueMessageIdsAux ids [], fun x => ?_⟩,
    fun ids st => bulkDeleteRun_effects _ st (nodup_uniqueMessageIdsAux ids []),
    by decide, by decide⟩
  rw [unique_message_ids, mem_uniqueMessageIdsAux]
  simp

/-- Witness for the bulk-delete theorem at the concrete id list of the
specification scenario. -/
theorem bulk_delete_dedup_spec_witness :
    (unique_message_ids ["42", "99", "42", "7", "99"]).Nodup :=
  (bulk_delete_dedup_spec.1 ["42", "99", "42", "7", "99"]).1

/-- A concrete environment with empty lookups, a timing-out
provisioning coordinator and default configuration strings. -/
def sampleEnv : BridgeEnv :=
  { users := fun _ => none
  , channels := fun _ => none
  , roomState := fun _ _ => none
  , provision := fun _ _ => .timedOut
  , mentionResolve := fun _ => none
  , approvalPending := fun _ => false
  , ghostUsernamePattern := ":username"
  , channelNamePattern := ":name"
  , nameDeletePrepend := none
  , topicDeletePrepend := none
  , unsetRoomAlias := false
  , aliasLocalpartPre := "_discord_"
  , domain := "example.org"
  , roomCountLimit := -1
  , newEventId := "$new:example.org"
  , freshRoomId := 100
  , now := 1000 }

/-- A store with one bridged room and one message mapping, used to
instantiate the unbridge theorem. -/
def unbridgeExampleState : BridgeState :=
  { roomMappings :=
      [ { id := 5, matrix_room_id := "!room:example.org"
        , discord_channel_id := "123", discord_channel_name := "general"
        , discord_guild_id := "456", created_at := 0, updated_at := 0 } ]
  , messageMappings :=
      [ { id := 9, discord_message_id := "42", matrix_room_id := "!room:example.org"
        , matrix_event_id := "$e42", created_at := 0, updated_at := 0 } ] }

/-- C7: unbridging a bridged Matrix room deletes exactly the
RoomMapping rows bearing that mapping's id — the mapping itself is
gone, every other RoomMapping survives — and the MessageMapping table
is left completely unchanged. -/
theorem unbridge_preserves_message_mappings (room : String) (env : BridgeEnv)
    (st : BridgeState) (mapping : RoomMapping)
    (h : get_room_by_matrix_room st room = some mapping) :
    (unbridge_matrix_room room env st).1 = "This room has been unbridged" ∧
    ((unbridge_matrix_room room env st).2.2).messageMappings = st.messageMappings ∧
    ((unbridge_matrix_room room env st).2.2).roomMappings
      = st.roomMappings.filter (fun m => m.id ≠ mapping.id) ∧
    mapping ∉ ((unbridge_matrix_room room env st).2.2).roomMappings ∧
    ∀ m ∈ st.roomMappings, m.id ≠ mapping.id →
      m ∈ ((unbridge_matrix_room room env st).2.2).roomMappings := by
  refine ⟨by simp [unbridge_matrix_room, h],
    by simp [unbridge_matrix_room, h, delete_room_mapping],
    by simp [unbridge_matrix_room, h, delete_room_mapping],
    fun hmem => ?_, fun m hm hne => ?_⟩
  · simp only [unbridge_matrix_room, h, delete_room_mapping] at hmem
    have hcond := (List.mem_filter.mp hmem).2
    simp at hcond
  · simp only [unbridge_matrix_room, h, delete_room_mapping]
    exact List.mem_filter.mpr ⟨hm, by simp [hne]⟩

/-- Witness for the unbridge theorem at the concrete example store:
the message mapping table survives the unbridge untouched. -/
theorem unbridge_preserves_message_mappings_witness :
    ((unbridge_matrix_room "!room:example.org" sampleEnv
        unbridgeExampleState).2.2).messageMappings
      = unbridgeExampleState.messageMappings :=
  (unbridge_preserves_message_mappings "!room:example.org" sampleEnv
    unbridgeExampleState
    { id := 5, matrix_room_id := "!room:example.org"
    , discord_channel_id := "123", discord_channel_name := "general"
    , discord_guild_id := "456", created_at := 0, updated_at := 0 }
    (by decide)).2.1

end Bridge

namespace Bridge

/-- A concrete recent room message used to exhibit replay behaviour. -/
def replayEvent : MatrixEvent :=
  { event_id := some "$dup:example.org"
  , event_type := "m.room.message"
  , room_id := "!room:example.org"
  , sender := "@user:example.org"
  , state_key := none
  , content := some "hi"
  , timestamp := none }

end Bridge

namespace Bridge

/-- C8: `apply_message_relation_mappings` is the identity when both
mappings are `None`; a present `reply_mapping` sets `reply_to` to its
`matrix_event_id`, a present `edit_mapping` sets `edit_of` to its
`matrix_event_id`, and in every case all other fields are unchanged. -/
theorem apply_message_relation_mappings_spec :
    (∀ o : OutboundMatrixMessage, apply_message_relation_mappings o none none = o) ∧
    (∀ (o : OutboundMatrixMessage) (l : MessageMapping),
      apply_message_relation_mappings o (some l) none
        = { o with reply_to := some l.matrix_event_id }) ∧
    (∀ (o : OutboundMatrixMessage) (l : MessageMapping),
      apply_message_relation_mappings o none (some l)
        = { o with edit_of := some l.matrix_event_id }) ∧
    (∀ (o : OutboundMatrixMessage) (lr le : MessageMapping),
      apply_message_relation_mappings o (some lr) (some le)
        = { o with reply_to := some lr.matrix_event_id
                 , edit_of := some le.matrix_event_id }) := by
  refine ⟨fun o => rfl, fun o l => rfl, fun o l => rfl, fun o lr le => rfl⟩

/-- C4: an inbound Matrix event whose parsed timestamp is more than
`AGE_LIMIT_MS` = 900000 ms in the past is rejected by the age check and
no handler is invoked (handlers being the only code that mutates the
store); an event whose timestamp lies in the future is admitted. -/
theorem age_cutoff_drops_old_events (e : MatrixEvent) (now ts : Int) (s : String)
    (hs : e.timestamp = some s) (hp : rustParseI64 s = some ts) :
    (ts ≤ now → now - ts > AGE_LIMIT_MS →
      check_event_age e now = false ∧ process_event e now = none) ∧
    (ts > now → check_event_age e now = true ∧ process_event e now = dispatchEvent e) := by
  constructor
  · intro hle hage
    have hnotgt : ¬ ts > now := not_lt.mpr hle
    have hcheck : check_event_age e now = false := by
      simp [check_event_age, hs, hp, hnotgt, hage]
    exact ⟨hcheck, by simp [process_event, hcheck]⟩
  · intro hgt
    have hcheck : check_event_age e now = true := by
      simp [check_event_age, hs, hp, hgt]
    exact ⟨hcheck, by simp [process_event, hcheck]⟩

/-- Witness for the age-cutoff theorem at concrete inputs: an event
timestamped 0 seen at wall clock 1000000 ms is dropped, and an event
timestamped 10 seen at wall clock 5 ms is admitted. -/
theorem age_cutoff_drops_old_events_witness :
    (check_event_age { replayEvent with timestamp := some "0" } 1000000 = false ∧
      process_event { replayEvent with timestamp := some "0" } 1000000 = none) ∧
    (check_event_age { replayEvent with timestamp := some "10" } 5 = true ∧
      process_event { replayEvent with timestamp := some "10" } 5
        = dispatchEvent { replayEvent with timestamp := some "10" }) :=
  ⟨(age_cutoff_drops_old_events { replayEvent with timestamp := some "0" } 1000000 0 "0"
      rfl (by decide)).1 (by decide) (by decide),
   (age_cutoff_drops_old_events { replayEvent with timestamp := some "10" } 5 10 "10"
      rfl (by decide)).2 (by decide)⟩

/-- C9: an inbound Matrix event whose origin timestamp is absent, or
present but not parseable as an integer, passes the age check and is
dispatched to its type handler regardless of its actual age. -/
theorem age_check_admits_unparseable (e : MatrixEvent) (now : Int) :
    (e.timestamp = none →
      check_event_age e now = true ∧ process_event e now = dispatchEvent e) ∧
    (∀ s, e.timestamp = some s → rustParseI64 s = none →
      check_event_age e now = true ∧ process_event e now = dispatchEvent e) := by
  constructor
  · intro h
    have hcheck : check_event_age e now = true := by simp [check_event_age, h]
    exact ⟨hcheck, by simp [process_event, hcheck]⟩
  · intro s hs hp
    have hcheck : check_event_age e now = true := by simp [check_event_age, hs, hp]
    exact ⟨hcheck, by simp [process_event, hcheck]⟩

/-- Witness for the unparseable-timestamp theorem: a missing timestamp
and the non-numeric timestamp "garbage" are both admitted and
dispatched. -/
theorem age_check_admits_unparseable_witness :
    (check_event_age replayEvent 123456789 = true ∧
      process_event replayEvent 123456789 = dispatchEvent replayEvent) ∧
    (check_event_age { replayEvent with timestamp := some "garbage" } 123456789 = true ∧
      process_event { replayEvent with timestamp := some "garbage" } 123456789
        = dispatchEvent { replayEvent with timestamp := some "garbage" }) :=
  ⟨(age_check_admits_unparseable replayEvent 123456789).1 rfl,
   (age_check_admits_unparseable { replayEvent with timestamp := some "garbage" }
      123456789).2 "garbage" rfl (by decide)⟩

/-- C2 counterexample: the dispatcher performs no idempotency check.
Replaying the very same already-processed room message inside one
transaction invokes the room-message handler a second time instead of
dropping the duplicate, so reprocessing is not a no-op. -/
theorem replay_not_dropped_counterexample :
    processTransaction [replayEvent, replayEvent] 1000
      = [.roomMessage replayEvent, .roomMessage replayEvent] := by
  decide

/-- C2 amended: `process_event` consults no ProcessedEvent journal, so
whenever an event is dispatched to a handler, replaying the identical
event dispatches it again: the duplicate produces a second handler
invocation rather than being dropped. -/
theorem replay_dispatches_again (e : MatrixEvent) (now : Int) (c : HandlerCall)
    (h : process_event e now = some c) :
    processTransaction [e, e] now = [c, c] := by
  simp [processTransaction, h]

/-- Witness for the replay theorem at the concrete replay event. -/
theorem replay_dispatches_again_witness :
    processTransaction [replayEvent, replayEvent] 1000
      = [.roomMessage replayEvent, .roomMessage replayEvent] :=
  replay_dispatches_again replayEvent 1000 (.roomMessage replayEvent) (by decide)

/-- The specification's scenario S3: a Discord reply to message
"Mprev" in a bridged channel for which no MessageMapping exists. -/
def replyMissingCtx : DiscordMessageContext :=
  { channel_id := "123"
  , source_message_id := some "M2"
  , sender_id := "U"
  , content := "+1"
  , attachments := []
  , reply_to := some "Mprev"
  , edit_of := none
  , permissions := [] }

/-- A store bridging channel 123 to a Matrix room, with no message
mappings at all. -/
def replyMissingState : BridgeState :=
  { roomMappings :=
      [ { id := 5, matrix_room_id := "!room:example.org"
        , discord_channel_id := "123", discord_channel_name := "general"
        , discord_guild_id := "456", created_at := 0, updated_at := 0 } ]
  , messageMappings := [] }

/-- C1 counterexample: in the setting of scenario S3 (reply to an
unmapped Discord message) the Matrix message actually produced by
`handle_discord_message_with_context` carries `reply_to = some
"Mprev"` — the raw Discord message id — not `reply_to = none` as the
claim states.  The reply reference is not dropped. -/
theorem discord_reply_missing_counterexample :
    sent_matrix_messages
        (handle_discord_message_with_context replyMissingCtx sampleEnv
          replyMissingState).1
      = [{ room := "!room:example.org", sender := "U", body := "+1"
         , reply_to := some "Mprev", edit_of := none, attachments := [] }] := by
  decide

/-- C1 amended: for every inbound Discord message replying to a
Discord message id with no MessageMapping, exactly one Matrix message
is still sent (no error is surfaced) and its `reply_to` field retains
the original Discord message id rather than being dropped to `None`. -/
theorem discord_reply_missing_mapping_keeps_discord_id
    (ctx : DiscordMessageContext) (env : BridgeEnv) (st : BridgeState)
    (mapping : RoomMapping) (rid : String)
    (hcmd : discord_is_command ctx.content = false)
    (hroom : get_room_by_discord_channel st ctx.channel_id = some mapping)
    (hreply : ctx.reply_to = some rid)
    (hmiss : get_by_discord_message_id st rid = none) :
    (sent_matrix_messages
        (handle_discord_message_with_context ctx env st).1).map
          (fun m => m.reply_to)
      = [some rid] := by
  rcases hu : env.users ctx.sender_id with _ | u <;>
    rcases he : ctx.edit_of with _ | eid
  · simp [handle_discord_message_with_context, hcmd, hroom, hreply, hmiss,
      discord_to_matrix, apply_message_relation_mappings, sent_matrix_messages, hu, he]
  · rcases hm : get_by_discord_message_id st eid with _ | link <;>
      simp [handle_discord_message_with_context, hcmd, hroom, hreply, hmiss,
        discord_to_matrix, apply_message_relation_mappings, sent_matrix_messages,
        hu, he, hm]
  · simp [handle_discord_message_with_context, hcmd, hroom, hreply, hmiss,
      discord_to_matrix, apply_message_relation_mappings, sent_matrix_messages, hu, he]
  · rcases hm : get_by_discord_message_id st eid with _ | link <;>
      simp [handle_discord_message_with_context, hcmd, hroom, hreply, hmiss,
        discord_to_matrix, apply_message_relation_mappings, sent_matrix_messages,
        hu, he, hm]

/-- Witness for the amended reply theorem at the S3 scenario. -/
theorem discord_reply_missing_mapping_keeps_discord_id_witness :
    (sent_matrix_messages
        (handle_discord_message_with_context replyMissingCtx sampleEnv
          replyMissingState).1).map (fun m => m.reply_to)
      = [some "Mprev"] :=
  discord_reply_missing_mapping_keeps_discord_id replyMissingCtx sampleEnv
    replyMissingState
    { id := 5, matrix_room_id := "!room:example.org"
    , discord_channel_id := "123", discord_channel_name := "general"
    , discord_guild_id := "456", created_at := 0, updated_at := 0 }
    "Mprev" (by decide) (by decide) rfl rfl

/-- C10: a Discord gateway message authored by any bot account is
dropped before the bridge is reached: the handler builds no context,
produces no effect of any kind and leaves the store untouched. -/
theorem bot_authored_messages_suppressed (msg : GatewayMessage)
    (owned : List Nat) (bound : Bool) (env : BridgeEnv) (st : BridgeState)
    (h : msg.author_bot = true) :
    message_event msg owned bound = none ∧
    message_event_effects msg owned bound env st = ([], st) := by
  have h1 : message_event msg owned bound = none := by
    simp [message_event, h]
  exact ⟨h1, by simp [message_event_effects, h1]⟩

/-- A bot-authored gateway message used to instantiate the
suppression theorem. -/
def botGatewayMessage : GatewayMessage :=
  { id := "B1", channel_id := "123", author_id := "botuser"
  , author_bot := true, content := "hi", webhook_id := none
  , attachments := [], referenced_message_id := none
  , member_permissions := [] }

/-- Witness for the bot-suppression theorem at a concrete bot
message. -/
theorem bot_authored_messages_suppressed_witness :
    message_event botGatewayMessage [] true = none ∧
    message_event_effects botGatewayMessage [] true sampleEnv replyMissingState
      = ([], replyMissingState) :=
  bot_authored_messages_suppressed botGatewayMessage [] true sampleEnv
    replyMissingState rfl

/-- C6: when provisioning resolves as timed out, the requesting room
receives (after the permission-request announcement) a notice that is
exactly "Timed out waiting for a response from the Discord owners.",
and the store is returned unchanged — no RoomMapping is created. -/
theorem bridge_timeout_notice (room sender guild channel : String)
    (env : BridgeEnv) (st : BridgeState) (ch : DiscordChannel)
    (hlimit : check_room_limit env st = none)
    (hfree : get_room_by_discord_channel st channel = none)
    (hch : env.channels channel = some ch)
    (htimeout : env.provision ch.id sender = .timedOut) :
    handle_matrix_command_outcome (.bridgeRequested guild channel) room sender env st
      = ([Effect.matrixNotice room
            "I'm asking permission from the guild administrators to make this bridge.",
          Effect.matrixNotice room
            "Timed out waiting for a response from the Discord owners."], st) := by
  simp [handle_matrix_command_outcome, request_bridge_matrix_room, hlimit, hfree,
    hch, htimeout]

/-- An environment whose channel lookup succeeds and whose
provisioning coordinator times out. -/
def timeoutEnv : BridgeEnv :=
  { sampleEnv with channels :=
      (fun cid => some { id := cid, name := "general", guild_id := "456", topic := none }) }

/-- Witness for the timeout theorem on an empty store: the exact
timeout notice is delivered and the store stays empty. -/
theorem bridge_timeout_notice_witness :
    handle_matrix_command_outcome (.bridgeRequested "456" "123")
        "!room:example.org" "@admin:example.org" timeoutEnv
        { roomMappings := [], messageMappings := [] }
      = ([Effect.matrixNotice "!room:example.org"
            "I'm asking permission from the guild administrators to make this bridge.",
          Effect.matrixNotice "!room:example.org"
            "Timed out waiting for a response from the Discord owners."],
         { roomMappings := [], messageMappings := [] }) :=
  bridge_timeout_notice "!room:example.org" "@admin:example.org" "456" "123"
    timeoutEnv { roomMappings := [], messageMappings := [] }
    { id := "123", name := "general", guild_id := "456", topic := none }
    (by decide) rfl rfl rfl

/-- C3 counterexample: rendering `body="hello"`, `reply_to=Some "$X"`,
`edit_of=Some "$Y"` and parsing the wire content back yields
`reply_to = none`: the `m.replace` relation overwrote the reply
relation, so the three fields do not round-trip. -/
theorem wire_roundtrip_counterexample :
    parse_matrix_wire (build_message_content "hello" (some "$X") (some "$Y"))
        = { body := "hello", reply_to := none, edit_of := some "$Y" } ∧
    parse_matrix_wire (build_message_content "hello" (some "$X") (some "$Y"))
        ≠ { body := "hello", reply_to := some "$X", edit_of := some "$Y" } := by
  decide

/-- C3 amended: the render/parse round-trip preserves all three
fields whenever `edit_of` is absent; when `edit_of` is present the
body and `edit_of` survive but `reply_to` always comes back `none`,
because writing the `m.replace` relation overwrites the reply
relation in the single `m.relates_to` key. -/
theorem wire_roundtrip_amended :
    (∀ (body : String) (r : Option String),
      parse_matrix_wire (build_message_content body r none)
        = { body := body, reply_to := r, edit_of := none }) ∧
    (∀ (body : String) (r : Option String) (y : String),
      parse_matrix_wire (build_message_content body r (some y))
        = { body := body, reply_to := none, edit_of := some y }) := by
  constructor
  · intro body r; cases r <;> rfl
  · intro body r y; cases r <;> rfl

end Bridge
